import Mathlib

/-!
Shallow embedding of the streaming-platform core
(apps/users/models.py, apps/streams/models.py, apps/api/views.py).

Machine integers are modelled as `Int` (Django IntegerField/BigIntegerField);
timestamps as `Int` seconds; nullable timestamps as `Option Int`.
The MD5 digest of `generate_signed_url` is abstracted as a function
parameter `digest : String → String` (the claims only concern which string
is digested, not the digest's value).
-/

namespace StreamingPlatform

/-- Stream.Status from apps/streams/models.py. -/
inductive StreamStatus where
  | OFFLINE
  | ONLINE
  | STARTING
  | ERROR
deriving DecidableEq

/-- User.SubscriptionTier from apps/users/models.py. -/
inductive SubscriptionTier where
  | FREE
  | BASIC
  | PREMIUM
  | ULTRA
deriving DecidableEq

/-- The usage-relevant fields of apps/users/models.py User. -/
structure User where
  id : Nat
  subscription_tier : SubscriptionTier
  total_watch_time : Int
  monthly_data_used : Int
deriving DecidableEq

/-- The fields of apps/streams/models.py Stream used by the core. -/
structure Stream where
  stream_key : String
  name : String
  status : StreamStatus
  available_qualities : List String
  default_quality : String
  current_viewers : Int
  total_views : Int
  peak_viewers : Int
  started_at : Option Int
  ended_at : Option Int
deriving DecidableEq

/-- The fields of apps/streams/models.py ViewSession used by the core. -/
structure Session where
  session_id : String
  user_id : Nat
  stream_key : String
  device_type : String
  quality : String
  started_at : Int
  last_heartbeat : Int
  ended_at : Option Int
  watch_duration : Int
  data_consumed : Int
  buffer_count : Int
  quality_switches : Int
  average_bitrate : Int
deriving DecidableEq

/-- The quality hierarchy hard-coded in User.can_watch_quality. -/
def quality_hierarchy : List String := ["360p", "480p", "720p", "1080p"]

/-- User.max_quality: the fixed tier table (the dict lookup's `'360p'`
default is unreachable for the four declared tiers). -/
def max_quality (tier : SubscriptionTier) : String :=
  match tier with
  | .FREE => "360p"
  | .BASIC => "480p"
  | .PREMIUM => "720p"
  | .ULTRA => "1080p"

/-- User.can_watch_quality: `.index` on a missing label raises ValueError,
caught and turned into `False`; modelled with `indexOf?`. -/
def can_watch_quality (tier : SubscriptionTier) (quality : String) : Bool :=
  let max_idx := quality_hierarchy.indexOf (max_quality tier)
  match quality_hierarchy.indexOf? quality with
  | some req_idx => req_idx ≤ max_idx
  | none => false

/-- The quality gate applied by StreamViewSet.get_playback_url
(views.py line 114): a request is rejected on quality grounds iff
`quality != 'auto' and not user.can_watch_quality(quality)`. -/
def quality_permitted (tier : SubscriptionTier) (quality : String) : Bool :=
  !(quality != "auto" && !(can_watch_quality tier quality))

/-- Stream.generate_signed_url, with the MD5 hexdigest abstracted as
`digest` and `timezone.now().timestamp()` passed in as `now`. -/
def generate_signed_url (digest : String → String) (base_url secret : String)
    (stream_key quality : String) (expires_in now : Int) : String :=
  let expires := now + expires_in
  let hls_path :=
    if quality = "auto" then stream_key ++ "/master.m3u8"
    else stream_key ++ "/" ++ quality ++ "/playlist.m3u8"
  let message := toString expires ++ hls_path ++ secret
  let signature := digest message
  base_url ++ "/" ++ hls_path ++ "?md5=" ++ signature ++ "&expires=" ++ toString expires

/-- Stream.update_viewer_count. -/
def update_viewer_count (st : Stream) (delta : Int) : Stream :=
  let c := max 0 (st.current_viewers + delta)
  { st with
      current_viewers := c
      peak_viewers := if c > st.peak_viewers then c else st.peak_viewers }

/-- ViewSession.end_session. Users are carried as a list; the session's
owner is found by id (the `+=` updates to total_watch_time and
monthly_data_used). -/
def end_session (now : Int) (s : Session) (st : Stream) (us : List User) :
    Session × Stream × List User :=
  match s.ended_at with
  | some _ => (s, st, us)
  | none =>
    let wd := now - s.started_at
    let s' := { s with ended_at := some now, watch_duration := wd }
    let st' := update_viewer_count st (-1)
    let us' := us.map (fun u =>
      if u.id = s.user_id then
        { u with
            total_watch_time := u.total_watch_time + wd
            monthly_data_used := u.monthly_data_used + s.data_consumed }
      else u)
    (s', st', us')

/-- Error responses of the API surface relevant to the core. -/
inductive ApiError where
  | streamOffline
  | qualityForbidden (max_quality : String)
  | notFound
deriving DecidableEq

/-- The success payload of StreamViewSet.get_playback_url. -/
structure PlaybackResponse where
  stream_url : String
  session_id : String
  quality : String
  available_qualities : List String
  expires_in : Int
deriving DecidableEq

/-- StreamViewSet.get_playback_url: quality gate, signed URL, session
creation (uuid4 modelled as the caller-supplied `fresh_id`), viewer-count
update. Returns the response together with the resulting stream and
session store; on an early return neither is changed. -/
def get_playback_url (digest : String → String) (base_url secret : String)
    (st : Stream) (u : User) (sessions : List Session)
    (quality device_type fresh_id : String) (now : Int) :
    Except ApiError PlaybackResponse × Stream × List Session :=
  if st.status ≠ StreamStatus.ONLINE then
    (Except.error ApiError.streamOffline, st, sessions)
  else if quality ≠ "auto" ∧ can_watch_quality u.subscription_tier quality = false then
    (Except.error (ApiError.qualityForbidden (max_quality u.subscription_tier)), st, sessions)
  else
    let signed_url := generate_signed_url digest base_url secret st.stream_key quality 3600 now
    let s : Session :=
      { session_id := fresh_id
        user_id := u.id
        stream_key := st.stream_key
        device_type := device_type
        quality := quality
        started_at := now
        last_heartbeat := now
        ended_at := none
        watch_duration := 0
        data_consumed := 0
        buffer_count := 0
        quality_switches := 0
        average_bitrate := 0 }
    let st' := update_viewer_count st 1
    (Except.ok
      { stream_url := signed_url
        session_id := fresh_id
        quality := quality
        available_qualities := st.available_qualities
        expires_in := 3600 },
     st', s :: sessions)

/-- The optional fields of a heartbeat request body. -/
structure HeartbeatUpdate where
  buffer_count : Option Int
  quality_switches : Option Int
  data_consumed : Option Int
  average_bitrate : Option Int
deriving DecidableEq

/-- The field merge performed by ViewSessionViewSet.heartbeat on the
session it found: last_heartbeat is always set, each stat field only
when present in the request body. -/
def apply_heartbeat (now : Int) (d : HeartbeatUpdate) (s : Session) : Session :=
  { s with
      last_heartbeat := now
      buffer_count := d.buffer_count.getD s.buffer_count
      quality_switches := d.quality_switches.getD s.quality_switches
      data_consumed := d.data_consumed.getD s.data_consumed
      average_bitrate := d.average_bitrate.getD s.average_bitrate }

/-- ViewSessionViewSet.heartbeat: get_object (404 when the session id is
unknown), then the unconditional field merge and save. -/
def heartbeat (sessions : List Session) (sid : String) (now : Int)
    (d : HeartbeatUpdate) : Except ApiError (List Session) :=
  if sessions.any (fun s => s.session_id == sid) then
    Except.ok (sessions.map (fun s =>
      if s.session_id == sid then apply_heartbeat now d s else s))
  else
    Except.error ApiError.notFound

/-- The per-stream mutation of WebhookViewSet.stream_start. -/
def stream_start_update (st : Stream) (now : Int) : Stream :=
  { st with
      status := StreamStatus.ONLINE
      started_at := some now
      current_viewers := 0 }

/-- WebhookViewSet.stream_start: lookup by stream_key (404 if absent),
then status/started_at/current_viewers update. -/
def stream_start (streams : List Stream) (key : String) (now : Int) :
    Except ApiError (List Stream) :=
  match streams.find? (fun s => s.stream_key == key) with
  | none => Except.error ApiError.notFound
  | some _ =>
    Except.ok (streams.map (fun s =>
      if s.stream_key == key then stream_start_update s now else s))

/-- The loop of WebhookViewSet.stream_stop over
`ViewSession.objects.filter(stream=stream, ended_at__isnull=True)`:
each matching active session is ended, threading the stream counters and
the user stats through the sequence of end_session calls. -/
def end_all (now : Int) : List Session → Stream → List User →
    List Session × Stream × List User
  | [], st, us => ([], st, us)
  | s :: rest, st, us =>
    if s.stream_key = st.stream_key ∧ s.ended_at = none then
      let r := end_session now s st us
      let r' := end_all now rest r.2.1 r.2.2
      (r.1 :: r'.1, r'.2.1, r'.2.2)
    else
      let r' := end_all now rest st us
      (s :: r'.1, r'.2.1, r'.2.2)

/-- WebhookViewSet.stream_stop: lookup by stream_key (404 if absent);
sets status OFFLINE, ended_at, current_viewers := 0 and saves, then ends
every active session of the stream. -/
def stream_stop (streams : List Stream) (sessions : List Session)
    (users : List User) (key : String) (now : Int) :
    Except ApiError (Stream × List Session × List User) :=
  match streams.find? (fun s => s.stream_key == key) with
  | none => Except.error ApiError.notFound
  | some st =>
    let st1 := { st with
      status := StreamStatus.OFFLINE
      ended_at := some now
      current_viewers := 0 }
    let r := end_all now sessions st1 users
    Except.ok (r.2.1, r.1, r.2.2)

/-- A freshly provisioned stream: the model defaults
(status OFFLINE, all counters 0, no timestamps). -/
def initial_stream (key name : String) (qs : List String) : Stream :=
  { stream_key := key
    name := name
    status := StreamStatus.OFFLINE
    available_qualities := qs
    default_quality := "auto"
    current_viewers := 0
    total_views := 0
    peak_viewers := 0
    started_at := none
    ended_at := none }

/-- The user-stat update of end_session, applied to the session's owner:
watch_duration is added to total_watch_time and data_consumed to
monthly_data_used. -/
def credit_user (now : Int) (s : Session) (u : User) : User :=
  if u.id = s.user_id then
    { u with
        total_watch_time := u.total_watch_time + (now - s.started_at)
        monthly_data_used := u.monthly_data_used + s.data_consumed }
  else u

/-- The canonical resource path of generate_signed_url, named so that the
URL-format theorem can speak about it. -/
def hls_path (stream_key quality : String) : String :=
  if quality = "auto" then stream_key ++ "/master.m3u8"
  else stream_key ++ "/" ++ quality ++ "/playlist.m3u8"

/-- A sequence of update_viewer_count calls applied in order. -/
def run_deltas (st : Stream) (ds : List Int) : Stream :=
  ds.foldl update_viewer_count st

/-- The value of current_viewers observed after each call of a sequence
of update_viewer_count calls. -/
def currents_after (st : Stream) : List Int → List Int
  | [] => []
  | d :: ds =>
    (update_viewer_count st d).current_viewers ::
      currents_after (update_viewer_count st d) ds

/-- Total watch duration that ending the active sessions of stream `key`
at time `now` credits to user `uid`. -/
def watch_credit (now : Int) (key : String) (uid : Nat) : List Session → Int
  | [] => 0
  | s :: rest =>
    (if s.stream_key = key ∧ s.ended_at = none ∧ s.user_id = uid
      then now - s.started_at else 0) + watch_credit now key uid rest

/-- A concrete online stream used in witnesses and counterexamples. -/
def demo_stream : Stream :=
  { stream_key := "k1"
    name := "demo"
    status := StreamStatus.ONLINE
    available_qualities := ["360p", "480p", "720p", "1080p"]
    default_quality := "auto"
    current_viewers := 0
    total_views := 0
    peak_viewers := 0
    started_at := some 0
    ended_at := none }

/-- A concrete FREE-tier user. -/
def demo_user : User :=
  { id := 1
    subscription_tier := SubscriptionTier.FREE
    total_watch_time := 0
    monthly_data_used := 0 }

/-- A concrete BASIC-tier user. -/
def demo_basic_user : User :=
  { id := 2
    subscription_tier := SubscriptionTier.BASIC
    total_watch_time := 7
    monthly_data_used := 9 }

/-- A concrete session that has already ended. -/
def demo_ended_session : Session :=
  { session_id := "s1"
    user_id := 1
    stream_key := "k1"
    device_type := "web"
    quality := "720p"
    started_at := 0
    last_heartbeat := 50
    ended_at := some 100
    watch_duration := 100
    data_consumed := 42
    buffer_count := 0
    quality_switches := 0
    average_bitrate := 0 }

/-- A concrete session still active on demo_stream. -/
def demo_active_session : Session :=
  { session_id := "s2"
    user_id := 1
    stream_key := "k1"
    device_type := "web"
    quality := "auto"
    started_at := 10
    last_heartbeat := 60
    ended_at := none
    watch_duration := 0
    data_consumed := 5
    buffer_count := 1
    quality_switches := 0
    average_bitrate := 800 }

/-- A heartbeat body carrying only buffer_count. -/
def demo_update : HeartbeatUpdate :=
  { buffer_count := some 5
    quality_switches := none
    data_consumed := none
    average_bitrate := none }

theorem indexOf?_none_of_not_mem (q : String) (h : q ∉ quality_hierarchy) :
    quality_hierarchy.indexOf? q = none := by
  rw [List.indexOf?_eq_none_iff]
  intro x hx
  simp only [beq_iff_eq]
  intro hxq
  exact h (hxq ▸ hx)

/-- Claim C1: EndSession is idempotent — a second EndSession after any
first one leaves the session, the stream counters and the user stats
exactly as the first call left them (and hence returns the same terminal
watch_duration and data_consumed), so the viewer-count decrement and the
user-usage additions are applied exactly once. -/
theorem end_session_idempotent (now1 now2 : Int) (s : Session) (st : Stream)
    (us : List User) :
    end_session now2 (end_session now1 s st us).1
      (end_session now1 s st us).2.1 (end_session now1 s st us).2.2 =
      end_session now1 s st us := by
  cases h : s.ended_at with
  | some t => simp [end_session, h]
  | none => simp [end_session, h]

/-- Claim C5: the quality label "auto" is always permitted — the gate at
views.py line 114 accepts it for every subscription tier, and a playback
request for "auto" can never fail with QualityForbidden. -/
theorem auto_quality_always_permitted :
    (∀ tier, quality_permitted tier "auto" = true) ∧
    (∀ (digest : String → String) (base_url secret : String) (st : Stream)
        (u : User) (sessions : List Session) (device_type fresh_id : String)
        (now : Int) (m : String),
      (get_playback_url digest base_url secret st u sessions "auto"
          device_type fresh_id now).1 ≠
        Except.error (ApiError.qualityForbidden m)) := by
  constructor
  · intro tier
    rfl
  · intro digest base_url secret st u sessions device_type fresh_id now m
    unfold get_playback_url
    by_cases h : st.status ≠ StreamStatus.ONLINE
    · simp [h]
    · simp [h]

/-- Witness for auto_quality_always_permitted at the concrete inputs
FREE tier and demo_stream. -/
theorem auto_quality_always_permitted_witness :
    quality_permitted SubscriptionTier.FREE "auto" = true ∧
    (get_playback_url id "http://cdn" "sec" demo_stream demo_user []
        "auto" "web" "sid1" 10).1 ≠
      Except.error (ApiError.qualityForbidden "480p") :=
  ⟨auto_quality_always_permitted.1 SubscriptionTier.FREE,
   auto_quality_always_permitted.2 id "http://cdn" "sec" demo_stream
     demo_user [] "web" "sid1" 10 "480p"⟩

/-- Claim C8: max_quality realises the fixed tier table, and
can_watch_quality holds exactly when the requested label's index in the
hierarchy is at most the index of the tier's maximum; labels outside the
hierarchy fail closed; in particular FREE cannot watch 720p and ULTRA can
watch 1080p. -/
theorem can_watch_matches_tier_table :
    (max_quality SubscriptionTier.FREE = "360p" ∧
     max_quality SubscriptionTier.BASIC = "480p" ∧
     max_quality SubscriptionTier.PREMIUM = "720p" ∧
     max_quality SubscriptionTier.ULTRA = "1080p") ∧
    (∀ tier quality, quality ∈ quality_hierarchy →
      (can_watch_quality tier quality = true ↔
        quality_hierarchy.indexOf quality ≤
          quality_hierarchy.indexOf (max_quality tier))) ∧
    (∀ tier quality, quality ∉ quality_hierarchy →
      can_watch_quality tier quality = false) ∧
    can_watch_quality SubscriptionTier.FREE "720p" = false ∧
    can_watch_quality SubscriptionTier.ULTRA "1080p" = true := by
  refine ⟨⟨rfl, rfl, rfl, rfl⟩, ?_, ?_, by decide, by decide⟩
  · intro tier quality hq
    simp only [quality_hierarchy, List.mem_cons, List.not_mem_nil, or_false] at hq
    rcases hq with rfl | rfl | rfl | rfl <;> cases tier <;> decide
  · intro tier quality hq
    unfold can_watch_quality
    rw [indexOf?_none_of_not_mem quality hq]

/-- Witness for can_watch_matches_tier_table at the concrete inputs
(FREE, 480p) for the in-hierarchy clause and (BASIC, auto) for the
fail-closed clause. -/
theorem can_watch_matches_tier_table_witness :
    ("480p" ∈ quality_hierarchy ∧
      (can_watch_quality SubscriptionTier.FREE "480p" = true ↔
        quality_hierarchy.indexOf "480p" ≤
          quality_hierarchy.indexOf (max_quality SubscriptionTier.FREE))) ∧
    ("auto" ∉ quality_hierarchy ∧
      can_watch_quality SubscriptionTier.BASIC "auto" = false) :=
  ⟨⟨by decide, can_watch_matches_tier_table.2.1 SubscriptionTier.FREE "480p" (by decide)⟩,
   ⟨by decide, can_watch_matches_tier_table.2.2.1 SubscriptionTier.BASIC "auto" (by decide)⟩⟩

/-- Claim C9: generate_signed_url builds the canonical path
(master.m3u8 for auto, {quality}/playlist.m3u8 otherwise), computes
expiresAt = now + expires_in, digests the concatenation
expiresAt ++ path ++ secret, and returns a URL embedding the path with
the signature and expiry as query parameters; concretely, signing
("abc", "720p", 3600, now) yields a URL containing
abc/720p/playlist.m3u8 with expiry now + 3600. -/
theorem signed_url_spec :
    (∀ (digest : String → String) (base_url secret key q : String) (e now : Int),
      generate_signed_url digest base_url secret key q e now =
        base_url ++ "/" ++ hls_path key q ++ "?md5=" ++
          digest (toString (now + e) ++ hls_path key q ++ secret) ++
          "&expires=" ++ toString (now + e)) ∧
    (∀ key, hls_path key "auto" = key ++ "/master.m3u8") ∧
    (∀ key q, q ≠ "auto" →
      hls_path key q = key ++ "/" ++ q ++ "/playlist.m3u8") ∧
    (∀ (digest : String → String) (base_url secret : String) (now : Int),
      ∃ a b,
        generate_signed_url digest base_url secret "abc" "720p" 3600 now =
          a ++ "abc/720p/playlist.m3u8" ++ b ∧
        b = "?md5=" ++
          digest (toString (now + 3600) ++ "abc/720p/playlist.m3u8" ++ secret) ++
          "&expires=" ++ toString (now + 3600)) := by
  refine ⟨?_, fun key => rfl, ?_, ?_⟩
  · intro digest base_url secret key q e now
    unfold generate_signed_url hls_path
    by_cases h : q = "auto" <;> simp [h]
  · intro key q h
    simp [hls_path, h]
  · intro digest base_url secret now
    refine ⟨base_url ++ "/",
      "?md5=" ++
        digest (toString (now + 3600) ++ "abc/720p/playlist.m3u8" ++ secret) ++
        "&expires=" ++ toString (now + 3600), ?_, rfl⟩
    unfold generate_signed_url
    have hpath : "abc" ++ "/" ++ "720p" ++ "/playlist.m3u8" =
        "abc/720p/playlist.m3u8" := rfl
    simp only [if_neg (by decide : ¬ ("720p" = "auto"))]
    rw [hpath]
    simp only [String.append_assoc]

/-- Witness for signed_url_spec at the concrete input ("abc", "720p"). -/
theorem signed_url_spec_witness :
    ("720p" ≠ "auto") ∧
    hls_path "abc" "720p" = "abc" ++ "/" ++ "720p" ++ "/playlist.m3u8" :=
  ⟨by decide, signed_url_spec.2.2.1 "abc" "720p" (by decide)⟩

/-- Claim C10: the stream_start webhook transition for a known stream key
changes only status (to ONLINE), started_at (to now) and current_viewers
(to 0); peak_viewers, total_views, available_qualities, ended_at and the
remaining stream fields are untouched. -/
theorem stream_start_frame :
    (∀ (st : Stream) (now : Int),
      (stream_start_update st now).status = StreamStatus.ONLINE ∧
      (stream_start_update st now).started_at = some now ∧
      (stream_start_update st now).current_viewers = 0 ∧
      (stream_start_update st now).peak_viewers = st.peak_viewers ∧
      (stream_start_update st now).total_views = st.total_views ∧
      (stream_start_update st now).available_qualities = st.available_qualities ∧
      (stream_start_update st now).ended_at = st.ended_at ∧
      (stream_start_update st now).stream_key = st.stream_key ∧
      (stream_start_update st now).name = st.name ∧
      (stream_start_update st now).default_quality = st.default_quality) ∧
    (∀ (streams : List Stream) (key : String) (now : Int) (st : Stream),
      streams.find? (fun s => s.stream_key == key) = some st →
      stream_start streams key now =
        Except.ok (streams.map (fun s =>
          if s.stream_key == key then stream_start_update s now else s))) := by
  constructor
  · intro st now
    exact ⟨rfl, rfl, rfl, rfl, rfl, rfl, rfl, rfl, rfl, rfl⟩
  · intro streams key now st h
    unfold stream_start
    rw [h]

/-- Witness for stream_start_frame: the lookup clause applied to the
one-element store holding demo_stream. -/
theorem stream_start_frame_witness :
    [demo_stream].find? (fun s => s.stream_key == "k1") = some demo_stream ∧
    stream_start [demo_stream] "k1" 77 =
      Except.ok ([demo_stream].map (fun s =>
        if s.stream_key == "k1" then stream_start_update s 77 else s)) :=
  ⟨by decide,
   stream_start_frame.2 [demo_stream] "k1" 77 demo_stream (by decide)⟩

theorem update_viewer_count_current (st : Stream) (d : Int) :
    (update_viewer_count st d).current_viewers = max 0 (st.current_viewers + d) :=
  rfl

theorem update_viewer_count_peak (st : Stream) (d : Int) :
    (update_viewer_count st d).peak_viewers =
      max st.peak_viewers (update_viewer_count st d).current_viewers := by
  unfold update_viewer_count
  dsimp only
  rcases le_or_lt (max 0 (st.current_viewers + d)) st.peak_viewers with h | h
  · rw [if_neg (not_lt.mpr h), max_eq_left h]
  · rw [if_pos h, max_eq_right h.le]

theorem currents_after_nonneg (ds : List Int) :
    ∀ (st : Stream), ∀ c ∈ currents_after st ds, 0 ≤ c := by
  induction ds with
  | nil =>
    intro st c hc
    simp [currents_after] at hc
  | cons d rest ih =>
    intro st c hc
    simp only [currents_after, List.mem_cons] at hc
    rcases hc with rfl | hc
    · rw [update_viewer_count_current]
      exact le_max_left 0 _
    · exact ih (update_viewer_count st d) c hc

theorem run_deltas_peak (ds : List Int) :
    ∀ (st : Stream), (run_deltas st ds).peak_viewers =
      (currents_after st ds).foldl max st.peak_viewers := by
  induction ds with
  | nil => intro st; rfl
  | cons d rest ih =>
    intro st
    show (run_deltas (update_viewer_count st d) rest).peak_viewers =
      List.foldl max st.peak_viewers
        ((update_viewer_count st d).current_viewers ::
          currents_after (update_viewer_count st d) rest)
    rw [List.foldl_cons, ih (update_viewer_count st d),
      ← update_viewer_count_peak st d]

theorem run_deltas_current_le_peak (ds : List Int) :
    ∀ (st : Stream), st.current_viewers ≤ st.peak_viewers →
      (run_deltas st ds).current_viewers ≤ (run_deltas st ds).peak_viewers := by
  induction ds with
  | nil => intro st h; exact h
  | cons d rest ih =>
    intro st _
    exact ih (update_viewer_count st d)
      (by rw [update_viewer_count_peak st d]; exact le_max_right _ _)

/-- Claim C2: from a freshly provisioned stream, any sequence of
update_viewer_count calls keeps current_viewers nonnegative after every
call, leaves peak_viewers equal to the maximum current_viewers value ever
reached, and hence keeps peak_viewers at or above current_viewers. -/
theorem viewer_count_invariant (key name : String) (qs : List String)
    (ds : List Int) :
    (∀ c ∈ currents_after (initial_stream key name qs) ds, 0 ≤ c) ∧
    (run_deltas (initial_stream key name qs) ds).peak_viewers =
      (currents_after (initial_stream key name qs) ds).foldl max 0 ∧
    (run_deltas (initial_stream key name qs) ds).current_viewers ≤
      (run_deltas (initial_stream key name qs) ds).peak_viewers :=
  ⟨currents_after_nonneg ds (initial_stream key name qs),
   run_deltas_peak ds (initial_stream key name qs),
   run_deltas_current_le_peak ds (initial_stream key name qs) le_rfl⟩

/-- Witness for viewer_count_invariant on the concrete delta sequence
[5, -99, 3]: the current value 3 reached by the last call is
nonnegative, and the recorded peak is 5. -/
theorem viewer_count_invariant_witness :
    ((3 : Int) ∈ currents_after (initial_stream "k" "n" []) [5, -99, 3] ∧
      (0 : Int) ≤ 3) ∧
    (run_deltas (initial_stream "k" "n" []) [5, -99, 3]).peak_viewers = 5 := by
  have h := viewer_count_invariant "k" "n" [] [5, -99, 3]
  exact ⟨⟨by decide, h.1 3 (by decide)⟩, h.2.1.trans (by decide)⟩

/-- Counterexample to claim C3: a successful playback request against
demo_stream (total_views = 0) leaves total_views at 0; the claimed
increment to old + 1 = 1 does not happen. -/
theorem playback_total_views_counterexample :
    (∃ r, (get_playback_url id "http://cdn" "sec" demo_stream demo_user []
        "auto" "web" "sid1" 10).1 = Except.ok r) ∧
    demo_stream.total_views = 0 ∧
    (get_playback_url id "http://cdn" "sec" demo_stream demo_user []
        "auto" "web" "sid1" 10).2.1.total_views = 0 ∧
    (get_playback_url id "http://cdn" "sec" demo_stream demo_user []
        "auto" "web" "sid1" 10).2.1.total_views ≠ demo_stream.total_views + 1 :=
  ⟨⟨_, rfl⟩, rfl, rfl, by decide⟩

/-- Claim C3 as amended: a successful playback request creates exactly one
new session, in the ACTIVE state (ended_at = none), carrying the freshly
generated session id (distinct from every existing session id), and
routes the viewer increment through update_viewer_count with delta +1;
total_views is left unchanged. -/
theorem playback_success_spec (digest : String → String)
    (base_url secret : String) (st : Stream) (u : User)
    (sessions : List Session) (quality device_type fresh_id : String)
    (now : Int)
    (hon : st.status = StreamStatus.ONLINE)
    (hq : quality = "auto" ∨ can_watch_quality u.subscription_tier quality = true)
    (hfresh : fresh_id ∉ sessions.map Session.session_id) :
    ∃ r s,
      get_playback_url digest base_url secret st u sessions quality
          device_type fresh_id now =
        (Except.ok r, update_viewer_count st 1, s :: sessions) ∧
      s.ended_at = none ∧
      s.session_id = fresh_id ∧
      r.session_id = fresh_id ∧
      (∀ s0 ∈ sessions, s0.session_id ≠ s.session_id) ∧
      (update_viewer_count st 1).total_views = st.total_views ∧
      (update_viewer_count st 1).current_viewers =
        max 0 (st.current_viewers + 1) := by
  have hgate : ¬ (quality ≠ "auto" ∧
      can_watch_quality u.subscription_tier quality = false) := by
    rcases hq with h | h
    · exact fun hc => hc.1 h
    · exact fun hc => by rw [h] at hc; exact Bool.noConfusion hc.2
  unfold get_playback_url
  rw [if_neg (by rw [hon]; exact fun hc => hc rfl), if_neg hgate]
  refine ⟨_, _, rfl, rfl, rfl, rfl, ?_, rfl, rfl⟩
  intro s0 hs0 heq
  have heq' : s0.session_id = fresh_id := heq
  exact hfresh (heq' ▸ List.mem_map_of_mem Session.session_id hs0)

/-- Witness for playback_success_spec at demo_stream and demo_user with
quality "auto" and an empty session store. -/
theorem playback_success_spec_witness :
    (demo_stream.status = StreamStatus.ONLINE ∧
      ("auto" = "auto" ∨
        can_watch_quality demo_user.subscription_tier "auto" = true) ∧
      "sid1" ∉ ([] : List Session).map Session.session_id) ∧
    (∃ r s,
      get_playback_url id "http://cdn" "sec" demo_stream demo_user []
          "auto" "web" "sid1" 10 =
        (Except.ok r, update_viewer_count demo_stream 1, s :: ([] : List Session)) ∧
      s.ended_at = none ∧
      s.session_id = "sid1" ∧
      r.session_id = "sid1" ∧
      (∀ s0 ∈ ([] : List Session), s0.session_id ≠ s.session_id) ∧
      (update_viewer_count demo_stream 1).total_views = demo_stream.total_views ∧
      (update_viewer_count demo_stream 1).current_viewers =
        max 0 (demo_stream.current_viewers + 1)) :=
  ⟨⟨by decide, Or.inl rfl, by decide⟩,
   playback_success_spec id "http://cdn" "sec" demo_stream demo_user []
     "auto" "web" "sid1" 10 (by decide) (Or.inl rfl) (by decide)⟩

/-- Counterexample to claim C4: a heartbeat on the already-ended session
demo_ended_session is neither a no-op nor a rejection — it succeeds and
overwrites buffer_count (0 becomes 5) and last_heartbeat on the ended
session. -/
theorem heartbeat_ended_counterexample :
    demo_ended_session.ended_at = some 100 ∧
    demo_ended_session.buffer_count = 0 ∧
    heartbeat [demo_ended_session] "s1" 200 demo_update =
      Except.ok [apply_heartbeat 200 demo_update demo_ended_session] ∧
    (apply_heartbeat 200 demo_update demo_ended_session).buffer_count = 5 ∧
    (apply_heartbeat 200 demo_update demo_ended_session).last_heartbeat = 200 ∧
    apply_heartbeat 200 demo_update demo_ended_session ≠ demo_ended_session := by
  refine ⟨rfl, rfl, rfl, rfl, rfl, by decide⟩

/-- Claim C4 as amended: heartbeat fails with NotFound for an unknown
session id; for a known id it applies the partial update regardless of
whether the session has ended (ended sessions are not immutable under
heartbeat): last_heartbeat is set to now, each stat field present in the
body is overwritten, each absent field is kept, and ended_at itself is
unchanged. -/
theorem heartbeat_spec :
    (∀ (sessions : List Session) (sid : String) (now : Int)
        (d : HeartbeatUpdate),
      (∀ s ∈ sessions, s.session_id ≠ sid) →
      heartbeat sessions sid now d = Except.error ApiError.notFound) ∧
    (∀ (sessions : List Session) (sid : String) (now : Int)
        (d : HeartbeatUpdate),
      (∃ s ∈ sessions, s.session_id = sid) →
      ∃ l, heartbeat sessions sid now d = Except.ok l ∧
        l.length = sessions.length ∧
        ∀ i (h : i < sessions.length) (h2 : i < l.length),
          (if (sessions.get ⟨i, h⟩).session_id = sid then
            l.get ⟨i, h2⟩ = apply_heartbeat now d (sessions.get ⟨i, h⟩)
          else l.get ⟨i, h2⟩ = sessions.get ⟨i, h⟩)) ∧
    (∀ (now : Int) (d : HeartbeatUpdate) (s : Session),
      (apply_heartbeat now d s).last_heartbeat = now ∧
      (apply_heartbeat now d s).buffer_count = d.buffer_count.getD s.buffer_count ∧
      (apply_heartbeat now d s).quality_switches =
        d.quality_switches.getD s.quality_switches ∧
      (apply_heartbeat now d s).data_consumed = d.data_consumed.getD s.data_consumed ∧
      (apply_heartbeat now d s).average_bitrate =
        d.average_bitrate.getD s.average_bitrate ∧
      (apply_heartbeat now d s).ended_at = s.ended_at ∧
      (apply_heartbeat now d s).watch_duration = s.watch_duration) := by
  refine ⟨?_, ?_, fun now d s => ⟨rfl, rfl, rfl, rfl, rfl, rfl, rfl⟩⟩
  · intro sessions sid now d h
    unfold heartbeat
    rw [if_neg]
    intro hany
    rcases List.any_eq_true.mp hany with ⟨s, hs, hsid⟩
    exact h s hs (by simpa using hsid)
  · intro sessions sid now d h
    rcases h with ⟨s, hs, hsid⟩
    refine ⟨sessions.map (fun s =>
        if s.session_id == sid then apply_heartbeat now d s else s),
      ?_, List.length_map _ _, ?_⟩
    · unfold heartbeat
      rw [if_pos (List.any_eq_true.mpr ⟨s, hs, by simpa using hsid⟩)]
    · intro i hi h2
      have hg : (sessions.map (fun s =>
          if s.session_id == sid then apply_heartbeat now d s else s)).get ⟨i, h2⟩ =
          if (sessions.get ⟨i, hi⟩).session_id == sid
            then apply_heartbeat now d (sessions.get ⟨i, hi⟩)
            else sessions.get ⟨i, hi⟩ := by
        simp
      by_cases hc : (sessions.get ⟨i, hi⟩).session_id = sid
      · rw [if_pos hc, hg, if_pos (by simpa using hc)]
      · rw [if_neg hc, hg, if_neg (by simpa using hc)]

/-- Witness for heartbeat_spec: the NotFound clause on a store that does
not contain "zz", and the known-id clause on demo_ended_session. -/
theorem heartbeat_spec_witness :
    ((∀ s ∈ [demo_ended_session], s.session_id ≠ "zz") ∧
      heartbeat [demo_ended_session] "zz" 200 demo_update =
        Except.error ApiError.notFound) ∧
    ((∃ s ∈ [demo_ended_session], s.session_id = "s1") ∧
      ∃ l, heartbeat [demo_ended_session] "s1" 200 demo_update = Except.ok l ∧
        l.length = [demo_ended_session].length ∧
        ∀ i (h : i < [demo_ended_session].length) (h2 : i < l.length),
          (if ([demo_ended_session].get ⟨i, h⟩).session_id = "s1" then
            l.get ⟨i, h2⟩ =
              apply_heartbeat 200 demo_update ([demo_ended_session].get ⟨i, h⟩)
          else l.get ⟨i, h2⟩ = [demo_ended_session].get ⟨i, h⟩)) :=
  ⟨⟨by decide, heartbeat_spec.1 [demo_ended_session] "zz" 200 demo_update (by decide)⟩,
   ⟨⟨demo_ended_session, by decide⟩,
    heartbeat_spec.2.1 [demo_ended_session] "s1" 200 demo_update
      ⟨demo_ended_session, by decide⟩⟩⟩

/-- Claim C6: a playback request against a stream that is not ONLINE
fails with StreamOffline, and a request for a concrete quality the tier
may not watch fails with QualityForbidden carrying the user's maximum
quality; in both cases the stream and the session store are returned
unchanged; for a BASIC user requesting 1080p the carried maximum is
480p. -/
theorem start_session_failure_spec (digest : String → String)
    (base_url secret : String) (st : Stream) (u : User)
    (sessions : List Session) (quality device_type fresh_id : String)
    (now : Int) :
    (st.status ≠ StreamStatus.ONLINE →
      get_playback_url digest base_url secret st u sessions quality
          device_type fresh_id now =
        (Except.error ApiError.streamOffline, st, sessions)) ∧
    (st.status = StreamStatus.ONLINE → quality ≠ "auto" →
      can_watch_quality u.subscription_tier quality = false →
      get_playback_url digest base_url secret st u sessions quality
          device_type fresh_id now =
        (Except.error (ApiError.qualityForbidden (max_quality u.subscription_tier)),
         st, sessions)) ∧
    (max_quality SubscriptionTier.BASIC = "480p" ∧
      can_watch_quality SubscriptionTier.BASIC "1080p" = false) := by
  refine ⟨?_, ?_, rfl, by decide⟩
  · intro h
    unfold get_playback_url
    rw [if_pos h]
  · intro hon hq hcw
    unfold get_playback_url
    rw [if_neg (by rw [hon]; exact fun hc => hc rfl), if_pos ⟨hq, hcw⟩]

/-- Witness for start_session_failure_spec: the offline clause on a fresh
OFFLINE stream, and the forbidden clause for demo_basic_user requesting
1080p on demo_stream. -/
theorem start_session_failure_spec_witness :
    ((initial_stream "k2" "off" []).status ≠ StreamStatus.ONLINE ∧
      get_playback_url id "http://cdn" "sec" (initial_stream "k2" "off" [])
          demo_user [] "auto" "web" "sid9" 0 =
        (Except.error ApiError.streamOffline, initial_stream "k2" "off" [], [])) ∧
    (demo_stream.status = StreamStatus.ONLINE ∧ "1080p" ≠ "auto" ∧
      can_watch_quality demo_basic_user.subscription_tier "1080p" = false ∧
      get_playback_url id "http://cdn" "sec" demo_stream demo_basic_user []
          "1080p" "web" "sid9" 0 =
        (Except.error (ApiError.qualityForbidden
            (max_quality demo_basic_user.subscription_tier)), demo_stream, [])) :=
  ⟨⟨by decide,
    (start_session_failure_spec id "http://cdn" "sec"
        (initial_stream "k2" "off" []) demo_user [] "auto" "web" "sid9" 0).1
      (by decide)⟩,
   ⟨by decide, by decide, by decide,
    (start_session_failure_spec id "http://cdn" "sec" demo_stream
        demo_basic_user [] "1080p" "web" "sid9" 0).2.1
      (by decide) (by decide) (by decide)⟩⟩

theorem end_session_of_none (now : Int) (s : Session) (st : Stream)
    (us : List User) (h : s.ended_at = none) :
    end_session now s st us =
      ({ s with ended_at := some now, watch_duration := now - s.started_at },
       update_viewer_count st (-1),
       us.map (credit_user now s)) := by
  unfold end_session credit_user
  rw [h]

theorem end_session_of_some (now t : Int) (s : Session) (st : Stream)
    (us : List User) (h : s.ended_at = some t) :
    end_session now s st us = (s, st, us) := by
  unfold end_session
  rw [h]

theorem end_session_stream_frame (now : Int) (s : Session) (st : Stream)
    (us : List User) :
    (end_session now s st us).2.1.stream_key = st.stream_key ∧
    (end_session now s st us).2.1.status = st.status ∧
    (end_session now s st us).2.1.ended_at = st.ended_at := by
  cases h : s.ended_at with
  | none => rw [end_session_of_none now s st us h]; exact ⟨rfl, rfl, rfl⟩
  | some t => rw [end_session_of_some now t s st us h]; exact ⟨rfl, rfl, rfl⟩

theorem end_session_current_zero (now : Int) (s : Session) (st : Stream)
    (us : List User) (h0 : st.current_viewers = 0) :
    (end_session now s st us).2.1.current_viewers = 0 := by
  cases h : s.ended_at with
  | none =>
    rw [end_session_of_none now s st us h]
    show max 0 (st.current_viewers + (-1)) = 0
    rw [h0]
    decide
  | some t => rw [end_session_of_some now t s st us h]; exact h0

theorem credit_user_id (now : Int) (s : Session) (u : User) :
    (credit_user now s u).id = u.id := by
  unfold credit_user
  by_cases h : u.id = s.user_id
  · rw [if_pos h]
  · rw [if_neg h]

theorem end_all_cons (now : Int) (s : Session) (rest : List Session)
    (st : Stream) (us : List User) :
    end_all now (s :: rest) st us =
      if s.stream_key = st.stream_key ∧ s.ended_at = none then
        ((end_session now s st us).1 ::
            (end_all now rest (end_session now s st us).2.1
              (end_session now s st us).2.2).1,
         (end_all now rest (end_session now s st us).2.1
            (end_session now s st us).2.2).2.1,
         (end_all now rest (end_session now s st us).2.1
            (end_session now s st us).2.2).2.2)
      else
        (s :: (end_all now rest st us).1,
         (end_all now rest st us).2.1,
         (end_all now rest st us).2.2) := rfl

theorem end_all_stream_frame (now : Int) (ss : List Session) :
    ∀ (st : Stream) (us : List User),
      (end_all now ss st us).2.1.stream_key = st.stream_key ∧
      (end_all now ss st us).2.1.status = st.status ∧
      (end_all now ss st us).2.1.ended_at = st.ended_at := by
  induction ss with
  | nil => intro st us; exact ⟨rfl, rfl, rfl⟩
  | cons s rest ih =>
    intro st us
    rw [end_all_cons]
    by_cases hg : s.stream_key = st.stream_key ∧ s.ended_at = none
    · rw [if_pos hg]
      obtain ⟨h1, h2, h3⟩ :=
        ih (end_session now s st us).2.1 (end_session now s st us).2.2
      obtain ⟨g1, g2, g3⟩ := end_session_stream_frame now s st us
      exact ⟨h1.trans g1, h2.trans g2, h3.trans g3⟩
    · rw [if_neg hg]
      exact ih st us

theorem end_all_current_zero (now : Int) (ss : List Session) :
    ∀ (st : Stream) (us : List User), st.current_viewers = 0 →
      (end_all now ss st us).2.1.current_viewers = 0 := by
  induction ss with
  | nil => intro st us h0; exact h0
  | cons s rest ih =>
    intro st us h0
    rw [end_all_cons]
    by_cases hg : s.stream_key = st.stream_key ∧ s.ended_at = none
    · rw [if_pos hg]
      exact ih (end_session now s st us).2.1 (end_session now s st us).2.2
        (end_session_current_zero now s st us h0)
    · rw [if_neg hg]
      exact ih st us h0

theorem end_all_sessions_length (now : Int) (ss : List Session) :
    ∀ (st : Stream) (us : List User),
      (end_all now ss st us).1.length = ss.length := by
  induction ss with
  | nil => intro st us; rfl
  | cons s rest ih =>
    intro st us
    rw [end_all_cons]
    by_cases hg : s.stream_key = st.stream_key ∧ s.ended_at = none
    · rw [if_pos hg]
      show _ + 1 = _ + 1
      rw [ih]
    · rw [if_neg hg]
      show _ + 1 = _ + 1
      rw [ih]

theorem end_all_all_ended (now : Int) (ss : List Session) :
    ∀ (st : Stream) (us : List User),
      ∀ s' ∈ (end_all now ss st us).1,
        s'.stream_key = st.stream_key → s'.ended_at ≠ none := by
  induction ss with
  | nil =>
    intro st us s' hs'
    simp [end_all] at hs'
  | cons s rest ih =>
    intro st us s' hs'
    rw [end_all_cons] at hs'
    by_cases hg : s.stream_key = st.stream_key ∧ s.ended_at = none
    · rw [if_pos hg] at hs'
      rcases List.mem_cons.mp hs' with rfl | hmem
      · intro _
        rw [end_session_of_none now s st us hg.2]
        simp
      · intro hkey
        have hk := (end_session_stream_frame now s st us).1
        exact ih (end_session now s st us).2.1 (end_session now s st us).2.2
          s' hmem (by rw [hk]; exact hkey)
    · rw [if_neg hg] at hs'
      rcases List.mem_cons.mp hs' with rfl | hmem
      · intro hkey
        intro hne
        exact hg ⟨hkey, hne⟩
      · exact ih st us s' hmem

theorem end_all_users_length (now : Int) (ss : List Session) :
    ∀ (st : Stream) (us : List User),
      (end_all now ss st us).2.2.length = us.length := by
  induction ss with
  | nil => intro st us; rfl
  | cons s rest ih =>
    intro st us
    rw [end_all_cons]
    by_cases hg : s.stream_key = st.stream_key ∧ s.ended_at = none
    · rw [if_pos hg]
      rw [ih]
      cases h : s.ended_at with
      | none => rw [end_session_of_none now s st us h]; exact List.length_map _ _
      | some t => rw [end_session_of_some now t s st us h]
    · rw [if_neg hg]
      exact ih st us

theorem credit_user_total (now : Int) (s : Session) (u : User) :
    (credit_user now s u).total_watch_time =
      u.total_watch_time +
        (if u.id = s.user_id then now - s.started_at else 0) := by
  unfold credit_user
  by_cases h : u.id = s.user_id
  · rw [if_pos h, if_pos h]
  · rw [if_neg h, if_neg h, add_zero]

theorem watch_credit_cons (now : Int) (key : String) (uid : Nat)
    (s : Session) (rest : List Session) :
    watch_credit now key uid (s :: rest) =
      (if s.stream_key = key ∧ s.ended_at = none ∧ s.user_id = uid
        then now - s.started_at else 0) + watch_credit now key uid rest := rfl

theorem end_all_user_credit (now : Int) (ss : List Session) :
    ∀ (st : Stream) (us : List User) (i : Nat) (u : User),
      us[i]? = some u →
      ∃ u', (end_all now ss st us).2.2[i]? = some u' ∧
        u'.id = u.id ∧
        u'.total_watch_time =
          u.total_watch_time + watch_credit now st.stream_key u.id ss := by
  induction ss with
  | nil =>
    intro st us i u h
    exact ⟨u, h, rfl, (add_zero _).symm⟩
  | cons s rest ih =>
    intro st us i u h
    rw [end_all_cons]
    by_cases hg : s.stream_key = st.stream_key ∧ s.ended_at = none
    · rw [if_pos hg]
      rw [end_session_of_none now s st us hg.2]
      obtain ⟨u', hu', hid, htot⟩ := ih (update_viewer_count st (-1))
        (us.map (credit_user now s)) i (credit_user now s u)
        (by rw [List.getElem?_map, h]; rfl)
      have hkey : (update_viewer_count st (-1)).stream_key = st.stream_key := rfl
      rw [credit_user_id, hkey] at htot
      rw [credit_user_id] at hid
      refine ⟨u', hu', hid, ?_⟩
      rw [htot, credit_user_total, watch_credit_cons]
      by_cases hu : u.id = s.user_id
      · rw [if_pos hu, if_pos ⟨hg.1, hg.2, hu.symm⟩, add_assoc]
      · rw [if_neg hu, if_neg (fun hc => hu hc.2.2.symm), add_zero, zero_add]
    · rw [if_neg hg]
      obtain ⟨u', hu', hid, htot⟩ := ih st us i u h
      refine ⟨u', hu', hid, ?_⟩
      rw [htot, watch_credit_cons]
      rw [if_neg (fun hc => hg ⟨hc.1, hc.2.1⟩), zero_add]

/-- Claim C7: the stream_stop webhook fails with NotFound for an unknown
stream key; for a known key it sets the stream OFFLINE with ended_at =
now and current_viewers = 0 (still 0 after all the per-session
decrements), ends every session of that stream (none of the resulting
sessions of the stream is still active — trivially succeeding when no
session is active or the stream was never started), and credits each
user's total_watch_time with the summed watch durations of their active
sessions on that stream. -/
theorem stream_stop_spec (streams : List Stream) (sessions : List Session)
    (users : List User) (key : String) (now : Int) :
    (streams.find? (fun s => s.stream_key == key) = none →
      stream_stop streams sessions users key now =
        Except.error ApiError.notFound) ∧
    (∀ st, streams.find? (fun s => s.stream_key == key) = some st →
      ∃ st' ss' us',
        stream_stop streams sessions users key now =
          Except.ok (st', ss', us') ∧
        st'.status = StreamStatus.OFFLINE ∧
        st'.ended_at = some now ∧
        st'.current_viewers = 0 ∧
        ss'.length = sessions.length ∧
        (∀ s' ∈ ss', s'.stream_key = st.stream_key → s'.ended_at ≠ none) ∧
        us'.length = users.length ∧
        (∀ (i : Nat) (u : User), users[i]? = some u →
          ∃ u', us'[i]? = some u' ∧
            u'.id = u.id ∧
            u'.total_watch_time =
              u.total_watch_time +
                watch_credit now st.stream_key u.id sessions)) := by
  constructor
  · intro h
    unfold stream_stop
    rw [h]
  · intro st h
    unfold stream_stop
    rw [h]
    refine ⟨_, _, _, rfl, ?_, ?_, ?_, ?_, ?_, ?_, ?_⟩
    · exact (end_all_stream_frame now sessions _ users).2.1
    · exact (end_all_stream_frame now sessions _ users).2.2
    · exact end_all_current_zero now sessions _ users rfl
    · exact end_all_sessions_length now sessions _ users
    · exact end_all_all_ended now sessions _ users
    · exact end_all_users_length now sessions _ users
    · exact end_all_user_credit now sessions _ users

/-- Witness for stream_stop_spec: demo_stream with one active and one
already-ended session and the single owner demo_user; the known-key
clause is discharged at this concrete store. -/
theorem stream_stop_spec_witness :
    [demo_stream].find? (fun s => s.stream_key == "k1") = some demo_stream ∧
    (∃ st' ss' us',
      stream_stop [demo_stream] [demo_active_session, demo_ended_session]
          [demo_user] "k1" 100 =
        Except.ok (st', ss', us') ∧
      st'.status = StreamStatus.OFFLINE ∧
      st'.ended_at = some 100 ∧
      st'.current_viewers = 0 ∧
      ss'.length = [demo_active_session, demo_ended_session].length ∧
      (∀ s' ∈ ss', s'.stream_key = demo_stream.stream_key →
        s'.ended_at ≠ none) ∧
      us'.length = [demo_user].length ∧
      (∀ (i : Nat) (u : User), [demo_user][i]? = some u →
        ∃ u', us'[i]? = some u' ∧
          u'.id = u.id ∧
          u'.total_watch_time =
            u.total_watch_time +
              watch_credit 100 demo_stream.stream_key u.id
                [demo_active_session, demo_ended_session])) :=
  ⟨by decide,
   (stream_stop_spec [demo_stream] [demo_active_session, demo_ended_session]
      [demo_user] "k1" 100).2 demo_stream (by decide)⟩

end StreamingPlatform
